import Mathlib

set_option maxHeartbeats 1000000

/-! Shallow embedding of the my-simple-contacts application:
`src/models.py` (Contact entity, engine construction, session context
manager), `src/database/connector.py` (Cloud SQL connector configuration)
and `src/main.py` (route handlers and form validation). -/

/-- Embeds the `Contact` ORM row of src/models.py (lines 12-29): integer
primary key, non-null name, non-null address. -/
structure Contact where
  id : Nat
  name : String
  address : String
deriving DecidableEq, Repr

/-- The committed `contacts` table as the ORM sees it: its list of rows. -/
abbrev DB := List Contact

/-- A storage-layer exception, modelled by its message. -/
abbrev DBErr := String

/-- A session handle; only its identity matters in the model. -/
structure Session where
  sid : Nat
deriving DecidableEq, Repr

/-- Python str.strip(): remove leading and trailing whitespace characters.
Defined on the character list so the kernel can evaluate it. -/
def pyStrip (s : String) : String :=
  ⟨((s.data.dropWhile Char.isWhitespace).reverse.dropWhile
      Char.isWhitespace).reverse⟩

/-- Python str.lower(), on the character list. -/
def pyLower (s : String) : String :=
  ⟨s.data.map Char.toLower⟩

/-- True when `pat` occurs contiguously in the list. -/
def hasSubList (pat : List Char) : List Char → Bool
  | [] => false
  | c :: rest => List.isPrefixOf pat (c :: rest) || hasSubList pat rest

/-- Embeds a SQLAlchemy engine: we keep its connection URL. -/
structure Engine where
  url : String
deriving DecidableEq, Repr

/-- Scheme of a connection URL: the part before the first colon. -/
def urlScheme (e : Engine) : String :=
  ⟨e.url.data.takeWhile (fun c => c ≠ ':')⟩

/-- The fallback engine built by `create_engine` with URL
sqlite:///contacts.db in src/models.py lines 49 and 54. -/
def sqliteEngine : Engine := ⟨"sqlite:///contacts.db"⟩

/-- The process environment: maps a variable name to its value when set. -/
abbrev Env := String → Option String

/-- Embeds the Python membership test `key in os.environ`. -/
def envHas (env : Env) (k : String) : Bool := (env k).isSome

/-- Embeds Python truthiness of `os.environ.get(k)`: the variable is set
and its value is non-empty. -/
def envTruthy (env : Env) (k : String) : Bool :=
  match env k with
  | some v => v ≠ ""
  | none => false

/-- The four environment variables checked by get_engine
(src/models.py lines 37-42). -/
def managedKeys : List String :=
  ["CONTACTS_INSTANCE_CONNECTION_NAME", "CONTACTS_DB_USER",
   "CONTACTS_DB_PASS", "CONTACTS_DB_NAME"]

/-- The managed-database variable names exactly as the spec (section 6)
writes them; kept separate from `managedKeys`, which is taken from the
source, so the two can be compared. -/
def specManagedKeys : List String :=
  ["INSTANCE_CONNECTION_NAME", "DB_USER", "DB_PASS", "DB_NAME"]

/-- True when all four managed-database variables are present: the
condition of the `all(...)` test in get_engine. -/
def managed_mode (env : Env) : Bool := managedKeys.all (envHas env)

/-- IP types of the Cloud SQL connector. -/
inductive IPType
  | PRIVATE
  | PUBLIC
deriving DecidableEq, Repr

/-- Embeds the ip_type choice of get_connector
(src/database/connector.py lines 15-16): PRIVATE when the value of
PRIVATE_IP is truthy, PUBLIC otherwise. -/
def connectorIpType (env : Env) : IPType :=
  if envTruthy env "PRIVATE_IP" then IPType.PRIVATE else IPType.PUBLIC

/-- Embeds get_engine (src/models.py lines 34-54). `managed` is the
outcome of connect_with_connector(): the engine it builds, or the
exception it raises, which get_engine catches, falling back to SQLite. -/
def get_engine (env : Env) (managed : Except DBErr Engine) : Engine :=
  if managed_mode env then
    match managed with
    | Except.ok e => e
    | Except.error _ => sqliteEngine
  else
    sqliteEngine

/-- The fixed retry bound max_retries of get_db_session_context
(src/models.py line 78). -/
def maxRetries : Nat := 3

/-- Result of the acquisition loop: the session obtained or the error
raised, plus how many times the engine was disposed and rebuilt. -/
structure AcqResult where
  result : Except DBErr Session
  rebuilds : Nat
deriving Repr

/-- Embeds the while-loop of get_db_session_context (src/models.py lines
81-106). `outcome n` is what attempt n of building a session and running
the SELECT 1 probe produces. `fuel` equals maxRetries - retryCount, which
makes the loop structurally recursive; fuel 0 is the loop falling through
with no session, which raises the fixed message of line 106. On a failed
attempt with retries left the engine is disposed and rebuilt (lines
99-103), counted in `rebuilds`. -/
def acquireGo (outcome : Nat → Except DBErr Session) :
    Nat → Nat → Nat → AcqResult
  | _, rebuilds, 0 =>
    ⟨Except.error "Failed to create database session", rebuilds⟩
  | retryCount, rebuilds, fuel + 1 =>
    match outcome retryCount with
    | Except.ok s => ⟨Except.ok s, rebuilds⟩
    | Except.error e =>
      if retryCount + 1 ≥ maxRetries then ⟨Except.error e, rebuilds⟩
      else acquireGo outcome (retryCount + 1) (rebuilds + 1) fuel

/-- The acquisition loop entered with retry_count = 0. -/
def acquire (outcome : Nat → Except DBErr Session) : AcqResult :=
  acquireGo outcome 0 0 maxRetries

/-- Boolean success test on an acquisition attempt outcome. -/
def sessionOk (r : Except DBErr Session) : Bool :=
  match r with
  | Except.ok _ => true
  | Except.error _ => false

/-- Observable outcome of one use of get_db_session_context: what the
with-block returns or raises to the caller, the committed table
afterwards, the number of engine rebuilds, and the session the block ran
with (none when acquisition failed and the block never ran). -/
structure CtxResult where
  result : Except DBErr Unit
  db : DB
  rebuilds : Nat
  usedSession : Option Session
deriving Repr

/-- Embeds get_db_session_context (src/models.py lines 72-117). The
caller block is a function of the session and the committed table; it
either raises or produces the table it wants committed. On normal exit
the manager commits (line 110); when the block raises, it rolls back, so
the committed table is unchanged, and re-raises (lines 111-114). -/
def get_db_session_context (outcome : Nat → Except DBErr Session) (db : DB)
    (block : Session → DB → Except DBErr DB) : CtxResult :=
  match (acquire outcome).result with
  | Except.error e => ⟨Except.error e, db, (acquire outcome).rebuilds, none⟩
  | Except.ok s =>
    match block s db with
    | Except.ok db2 => ⟨Except.ok (), db2, (acquire outcome).rebuilds, some s⟩
    | Except.error e => ⟨Except.error e, db, (acquire outcome).rebuilds, some s⟩

/-- Field errors returned by validate_contact: at most one message under
the name key and one under the address key (the Python dict only ever
holds these two keys). -/
structure ValidationErrors where
  name : Option String
  address : Option String
deriving DecidableEq, Repr

/-- The empty mapping. -/
def noErrors : ValidationErrors := ⟨none, none⟩

/-- Embeds validate_contact (src/main.py lines 25-41). -/
def validate_contact (name address : String) : ValidationErrors :=
  { name :=
      if name = "" ∨ pyStrip name = "" then some "Name is required"
      else if (pyStrip name).length < 2 then
        some "Name must be at least 2 characters long"
      else none
    address :=
      if address = "" ∨ pyStrip address = "" then some "Address is required"
      else if (pyStrip address).length < 5 then
        some "Address must be at least 5 characters long"
      else none }

/-- A flash notice shown to the user. -/
inductive Flash
  | success (msg : String)
  | error (msg : String)
deriving DecidableEq, Repr

/-- A rendered response of the list page: HTTP status, the contacts handed
to the template, and the flash notices. -/
structure Page where
  status : Nat
  contacts : List Contact
  flashes : List Flash
deriving DecidableEq, Repr

/-- The Python substring test `pat in s`, for non-empty pat. -/
def containsSub (s pat : String) : Bool := hasSubList pat.data s.data

/-- What the storage layer produced while the homepage handler ran: the
rows, or an exception of one of the two caught classes. -/
inductive QueryOutcome
  | ok (rows : List Contact)
  | sqlError (msg : String)
  | otherError (msg : String)
deriving Repr

/-- Embeds homepage (src/main.py lines 44-66): render the rows on
success; on SQLAlchemyError flash a message chosen by substring tests on
the lowered error text and render an empty list; on any other exception
flash a fixed message and render an empty list. Always HTTP 200. -/
def homepage (q : QueryOutcome) : Page :=
  match q with
  | QueryOutcome.ok rows => ⟨200, rows, []⟩
  | QueryOutcome.sqlError msg =>
    if containsSub (pyLower msg) "invalidatepoolerrror"
        ∨ containsSub (pyLower msg) "timeout"
        ∨ containsSub (pyLower msg) "connection" then
      ⟨200, [],
        [Flash.error "Database connection timeout. The page will retry automatically."]⟩
    else
      ⟨200, [], [Flash.error ("Database error: " ++ msg)]⟩
  | QueryOutcome.otherError _ =>
    ⟨200, [],
      [Flash.error "An unexpected error occurred. Please try refreshing the page."]⟩

/-- Storage together with its autoincrement counter. -/
structure DBState where
  rows : DB
  nextId : Nat
deriving Repr

/-- Primary-key lookup: `query(Contact).filter(Contact.id == cid).first()`. -/
def fetchById (db : DB) (cid : Nat) : Option Contact :=
  db.find? (fun c => c.id == cid)

/-- Embeds session.add of a fresh Contact followed by commit: storage
assigns the next autoincrement id. Returns the new state and that id. -/
def addContact (st : DBState) (name address : String) : DBState × Nat :=
  (⟨st.rows ++ [⟨st.nextId, name, address⟩], st.nextId + 1⟩, st.nextId)

/-- Responses of the create-contact POST handler: re-render the form, or
redirect to the list. -/
inductive CreateResponse
  | form (errors : ValidationErrors) (name address : String) (flashes : List Flash)
  | redirectHome (flashes : List Flash)
deriving Repr

/-- Embeds the POST branch of create_contact (src/main.py lines 72-104):
strip both form fields, validate, re-render on validation errors,
otherwise persist and redirect. `saveErr` is the SQLAlchemyError raised
during the save, if any; on it the table is rolled back unchanged and the
form is re-rendered. -/
def create_contact_post (st : DBState) (rawName rawAddress : String)
    (saveErr : Option DBErr) : DBState × CreateResponse :=
  if validate_contact (pyStrip rawName) (pyStrip rawAddress) ≠ noErrors then
    (st, CreateResponse.form (validate_contact (pyStrip rawName) (pyStrip rawAddress))
      (pyStrip rawName) (pyStrip rawAddress) [])
  else
    match saveErr with
    | some e =>
      (st, CreateResponse.form noErrors (pyStrip rawName) (pyStrip rawAddress)
        [Flash.error ("Error saving contact: " ++ e)])
    | none =>
      ((addContact st (pyStrip rawName) (pyStrip rawAddress)).1,
        CreateResponse.redirectHome [Flash.success "Contact created successfully!"])

/-- Embeds delete_contact (src/main.py lines 110-135): look the id up; if
found, delete that row and flash success; else flash the not-found
notice; either way the handler redirects to the list and raises nothing. -/
def delete_contact (db : DB) (cid : Nat) : DB × Flash :=
  match db.find? (fun c => c.id == cid) with
  | some _ =>
    (db.eraseP (fun c => c.id == cid),
      Flash.success "Contact deleted successfully!")
  | none => (db, Flash.error "Contact not found!")

/-! Theorems. -/

/-- Helper: either emptiness condition of a validator branch forces the
stripped string to have length 0. -/
theorem pyStrip_len_zero (s : String) (h : s = "" ∨ pyStrip s = "") :
    (pyStrip s).length = 0 := by
  rcases h with h | h
  · subst h; rfl
  · rw [h]; rfl

/-- Helper: one field of validate_contact is empty exactly when the
stripped input reaches the bound (for a positive bound). -/
theorem validField_none (s msgA msgB : String) (k : Nat) (hk : 0 < k) :
    ((if s = "" ∨ pyStrip s = "" then some msgA
      else if (pyStrip s).length < k then some msgB
      else none) = none) ↔ k ≤ (pyStrip s).length := by
  split_ifs with h1 h2
  · have h0 := pyStrip_len_zero s h1
    constructor
    · intro h; exact h.elim
    · intro h; exact absurd h (by omega)
  · constructor
    · intro h; exact h.elim
    · intro h; exact absurd h (by omega)
  · constructor
    · intro h; omega
    · intro h; trivial

/-- C4: validate_contact returns the empty mapping iff the trimmed name
has length at least 2 and the trimmed address has length at least 5; on
the pair of empty strings it returns exactly the two required-messages;
and any input violating a bound puts the corresponding key in the
result. -/
theorem C4_validate_contact_bounds (name address : String) :
    (validate_contact name address = noErrors ↔
      2 ≤ (pyStrip name).length ∧ 5 ≤ (pyStrip address).length) ∧
    validate_contact "" "" =
      ⟨some "Name is required", some "Address is required"⟩ ∧
    ((pyStrip name).length < 2 → (validate_contact name address).name ≠ none) ∧
    ((pyStrip address).length < 5 →
      (validate_contact name address).address ≠ none) := by
  refine ⟨?_, by decide, ?_, ?_⟩
  · show ValidationErrors.mk _ _ = ValidationErrors.mk none none ↔ _
    rw [ValidationErrors.mk.injEq]
    rw [validField_none name _ _ 2 (by omega)]
    rw [validField_none address _ _ 5 (by omega)]
  · intro hlt h
    simp only [validate_contact] at h
    rw [validField_none name _ _ 2 (by omega)] at h
    omega
  · intro hlt h
    simp only [validate_contact] at h
    rw [validField_none address _ _ 5 (by omega)] at h
    omega

/-- C4 witness: the theorem applied at a name that is too short and an
address that is too short. -/
theorem C4_validate_contact_bounds_witness :
    (validate_contact "x" "abc" = noErrors ↔
      2 ≤ (pyStrip "x").length ∧ 5 ≤ (pyStrip "abc").length) ∧
    validate_contact "" "" =
      ⟨some "Name is required", some "Address is required"⟩ ∧
    ((pyStrip "x").length < 2 → (validate_contact "x" "abc").name ≠ none) ∧
    ((pyStrip "abc").length < 5 → (validate_contact "x" "abc").address ≠ none) :=
  C4_validate_contact_bounds "x" "abc"

/-- C7: deleting an id that no stored row carries leaves the table
unchanged, flashes the not-found notice and raises nothing (the handler
redirects to the list in all cases). -/
theorem C7_delete_nonexistent (db : DB) (cid : Nat)
    (h : ∀ c ∈ db, c.id ≠ cid) :
    delete_contact db cid = (db, Flash.error "Contact not found!") := by
  unfold delete_contact
  have hf : db.find? (fun c => c.id == cid) = none := by
    rw [List.find?_eq_none]
    intro c hc
    simp only [beq_iff_eq]
    exact h c hc
  rw [hf]

/-- C7 witness: deleting id 999 from a one-row table is a no-op with the
not-found flash. -/
theorem C7_delete_nonexistent_witness :
    (∀ c ∈ [Contact.mk 1 "John Doe" "123 Main Street"], c.id ≠ 999) ∧
    delete_contact [Contact.mk 1 "John Doe" "123 Main Street"] 999 =
      ([Contact.mk 1 "John Doe" "123 Main Street"],
        Flash.error "Contact not found!") :=
  ⟨by decide, C7_delete_nonexistent _ 999 (by decide)⟩

/-- Helper for C8: primary-key lookup of a freshly appended row finds it
when every existing id is below the new one. -/
theorem find_append_fresh (l : DB) (n : Nat) (name address : String)
    (h : ∀ c ∈ l, c.id < n) :
    (l ++ [Contact.mk n name address]).find? (fun c => c.id == n) =
      some (Contact.mk n name address) := by
  induction l with
  | nil => simp [List.find?]
  | cons a t ih =>
    have ha : a.id < n := h a (List.mem_cons_self a t)
    have hne : ((fun c => c.id == n) a) = false := by
      simp only [beq_eq_false_iff_ne, ne_eq]
      omega
    rw [List.cons_append, List.find?_cons_of_neg _ (by simp [hne])]
    exact ih (fun c hc => h c (List.mem_cons_of_mem a hc))

/-- C8: persisting a fresh Contact and fetching it back by the id that
storage assigned returns a row with exactly the stored name and address,
and the fetch is non-null. -/
theorem C8_round_trip (st : DBState) (name address : String)
    (h : ∀ c ∈ st.rows, c.id < st.nextId) :
    fetchById (addContact st name address).1.rows
        (addContact st name address).2 =
      some (Contact.mk (addContact st name address).2 name address) ∧
    (fetchById (addContact st name address).1.rows
        (addContact st name address).2).isSome = true := by
  have key : fetchById (addContact st name address).1.rows
      (addContact st name address).2 =
      some (Contact.mk st.nextId name address) := by
    simpa [fetchById, addContact] using
      find_append_fresh st.rows st.nextId name address h
  exact ⟨key, by rw [key]; rfl⟩

/-- C8 witness: the round trip on a one-row table with next id 2. -/
theorem C8_round_trip_witness :
    (∀ c ∈ (DBState.mk [Contact.mk 1 "a" "b"] 2).rows,
      c.id < (DBState.mk [Contact.mk 1 "a" "b"] 2).nextId) ∧
    (fetchById (addContact ⟨[Contact.mk 1 "a" "b"], 2⟩ "John Doe"
          "123 Main Street").1.rows
        (addContact ⟨[Contact.mk 1 "a" "b"], 2⟩ "John Doe"
          "123 Main Street").2 =
      some (Contact.mk (addContact ⟨[Contact.mk 1 "a" "b"], 2⟩ "John Doe"
          "123 Main Street").2 "John Doe" "123 Main Street")) :=
  ⟨by decide,
    (C8_round_trip ⟨[Contact.mk 1 "a" "b"], 2⟩ "John Doe" "123 Main Street"
      (by decide)).1⟩

/-- C9: whatever the storage layer does, the list handler renders with
status 200; on either caught exception class it renders an empty contact
list together with exactly one user-visible error notice. -/
theorem C9_homepage_never_5xx (q : QueryOutcome) :
    (homepage q).status = 200 ∧
    (∀ msg, (homepage (QueryOutcome.sqlError msg)).contacts = [] ∧
      ∃ m, (homepage (QueryOutcome.sqlError msg)).flashes = [Flash.error m]) ∧
    (∀ msg, (homepage (QueryOutcome.otherError msg)).contacts = [] ∧
      ∃ m, (homepage (QueryOutcome.otherError msg)).flashes = [Flash.error m]) := by
  refine ⟨?_, ?_, ?_⟩
  · cases q with
    | ok rows => rfl
    | sqlError msg =>
      simp only [homepage]
      split
      · rfl
      · rfl
    | otherError msg => rfl
  · intro msg
    simp only [homepage]
    constructor
    · split
      · rfl
      · rfl
    · split
      · exact ⟨_, rfl⟩
      · exact ⟨_, rfl⟩
  · intro msg
    exact ⟨rfl, _, rfl⟩

/-- C10: every row the create handler leaves in storage was already there
or carries exactly the stripped form fields: stripping happens before
validation and before the Contact is built, so no row persisted through
the web UI has leading or trailing whitespace. -/
theorem C10_create_strips (st : DBState) (rawName rawAddress : String)
    (saveErr : Option DBErr) (c : Contact)
    (hc : c ∈ (create_contact_post st rawName rawAddress saveErr).1.rows) :
    c ∈ st.rows ∨ (c.name = pyStrip rawName ∧ c.address = pyStrip rawAddress) := by
  cases saveErr with
  | some e =>
    simp only [create_contact_post] at hc
    split at hc
    · exact Or.inl hc
    · exact Or.inl hc
  | none =>
    simp only [create_contact_post] at hc
    split at hc
    · exact Or.inl hc
    · simp only [addContact, List.mem_append, List.mem_singleton] at hc
      rcases hc with hc | hc
      · exact Or.inl hc
      · subst hc
        exact Or.inr ⟨rfl, rfl⟩

/-- C10 witness: a padded name and address come out stripped. -/
theorem C10_create_strips_witness :
    Contact.mk 1 "John" "123 Main St" ∈
      (create_contact_post ⟨[], 1⟩ " John " " 123 Main St " none).1.rows ∧
    (Contact.mk 1 "John" "123 Main St" ∈ ([] : DB) ∨
      ("John" = pyStrip " John " ∧ "123 Main St" = pyStrip " 123 Main St ")) :=
  ⟨by decide,
    C10_create_strips ⟨[], 1⟩ " John " " 123 Main St " none
      (Contact.mk 1 "John" "123 Main St") (by decide)⟩

/-- Session source with instant success, used by the C1 witness. -/
def okOutcome : Nat → Except DBErr Session := fun _ => Except.ok ⟨0⟩

/-- A caller block that raises, used by the C1 witness. -/
def failBlock : Session → DB → Except DBErr DB :=
  fun _ _ => Except.error "boom"

/-- C1: once a session is acquired, a block that completes has its table
committed, a block that raises is rolled back (the committed table is
unchanged) with the original error re-raised, and a row the failing run
added is not visible afterwards. -/
theorem C1_commit_rollback (outcome : Nat → Except DBErr Session)
    (s : Session) (db : DB) (block : Session → DB → Except DBErr DB)
    (hacq : (acquire outcome).result = Except.ok s) :
    (∀ db2, block s db = Except.ok db2 →
      (get_db_session_context outcome db block).result = Except.ok () ∧
      (get_db_session_context outcome db block).db = db2) ∧
    (∀ e, block s db = Except.error e →
      (get_db_session_context outcome db block).result = Except.error e ∧
      (get_db_session_context outcome db block).db = db) ∧
    (∀ e c, block s db = Except.error e → c ∉ db →
      c ∉ (get_db_session_context outcome db block).db) := by
  unfold get_db_session_context
  simp only [hacq]
  refine ⟨?_, ?_, ?_⟩
  · intro db2 hb
    rw [hb]
    exact ⟨rfl, rfl⟩
  · intro e hb
    rw [hb]
    exact ⟨rfl, rfl⟩
  · intro e c hb hn
    rw [hb]
    exact hn

/-- C1 witness: a raising block leaves the table empty and the error is
re-raised to the caller. -/
theorem C1_commit_rollback_witness :
    (acquire okOutcome).result = Except.ok ⟨0⟩ ∧
    (get_db_session_context okOutcome [] failBlock).result =
      Except.error "boom" ∧
    (get_db_session_context okOutcome [] failBlock).db = [] :=
  ⟨rfl, (C1_commit_rollback okOutcome ⟨0⟩ [] failBlock rfl).2.1 "boom" rfl⟩

/-- Session source where every attempt fails, used by the C2 witness. -/
def allFailOutcome : Nat → Except DBErr Session := fun _ => Except.error "down"

/-- A caller block that adds one row, used by the C2 witness. -/
def addBlock : Session → DB → Except DBErr DB :=
  fun _ db => Except.ok (db ++ [⟨1, "John", "123 Main St"⟩])

/-- C2: acquisition is attempted at most 3 times (the result only depends
on the first 3 attempt outcomes); when all 3 attempts fail the manager
re-raises the last error and the block never runs; when the first success
is within the first 3 attempts the block runs with that session. -/
theorem C2_retry_bound (outcome : Nat → Except DBErr Session) (db : DB)
    (block : Session → DB → Except DBErr DB) (e0 e1 e2 : DBErr)
    (s : Session) (i : Nat) (outcome2 : Nat → Except DBErr Session) :
    (outcome 0 = Except.error e0 → outcome 1 = Except.error e1 →
      outcome 2 = Except.error e2 →
      (acquire outcome).result = Except.error e2 ∧
      (get_db_session_context outcome db block).result = Except.error e2 ∧
      (get_db_session_context outcome db block).usedSession = none ∧
      (get_db_session_context outcome db block).db = db) ∧
    (i < maxRetries → outcome i = Except.ok s →
      (∀ j, j < i → sessionOk (outcome j) = false) →
      (acquire outcome).result = Except.ok s ∧
      (get_db_session_context outcome db block).usedSession = some s) ∧
    ((∀ j, j < maxRetries → outcome j = outcome2 j) →
      acquire outcome = acquire outcome2) := by
  refine ⟨?_, ?_, ?_⟩
  · intro h0 h1 h2
    have ha : acquire outcome = ⟨Except.error e2, 2⟩ := by
      simp [acquire, acquireGo, maxRetries, h0, h1, h2]
    unfold get_db_session_context
    rw [ha]
    exact ⟨rfl, rfl, rfl, rfl⟩
  · intro hi hok hfail
    have hi3 : i < 3 := hi
    have key : acquire outcome = ⟨Except.ok s, i⟩ := by
      interval_cases i
      · simp [acquire, acquireGo, maxRetries, hok]
      · have h0 := hfail 0 (by omega)
        cases ho0 : outcome 0 with
        | ok t => rw [ho0] at h0; simp [sessionOk] at h0
        | error a => simp [acquire, acquireGo, maxRetries, ho0, hok]
      · have h0 := hfail 0 (by omega)
        have h1 := hfail 1 (by omega)
        cases ho0 : outcome 0 with
        | ok t => rw [ho0] at h0; simp [sessionOk] at h0
        | error a =>
          cases ho1 : outcome 1 with
          | ok t => rw [ho1] at h1; simp [sessionOk] at h1
          | error b => simp [acquire, acquireGo, maxRetries, ho0, ho1, hok]
    constructor
    · rw [key]
    · unfold get_db_session_context
      simp only [key]
      cases hb : block s db with
      | ok db2 => simp [hb]
      | error e => simp [hb]
  · intro hagree
    have k0 : outcome2 0 = outcome 0 := (hagree 0 (by decide)).symm
    have k1 : outcome2 1 = outcome 1 := (hagree 1 (by decide)).symm
    have k2 : outcome2 2 = outcome 2 := (hagree 2 (by decide)).symm
    cases ho0 : outcome 0 with
    | ok t => simp [acquire, acquireGo, maxRetries, ho0, k0.trans ho0]
    | error a =>
      cases ho1 : outcome 1 with
      | ok t =>
        simp [acquire, acquireGo, maxRetries, ho0, ho1, k0.trans ho0,
          k1.trans ho1]
      | error b =>
        cases ho2 : outcome 2 with
        | ok t =>
          simp [acquire, acquireGo, maxRetries, ho0, ho1, ho2, k0.trans ho0,
            k1.trans ho1, k2.trans ho2]
        | error c =>
          simp [acquire, acquireGo, maxRetries, ho0, ho1, ho2, k0.trans ho0,
            k1.trans ho1, k2.trans ho2]

/-- C2 witness: three straight failures surface the last error and the
block never runs. -/
theorem C2_retry_bound_witness :
    allFailOutcome 0 = Except.error "down" ∧
    (get_db_session_context allFailOutcome [] addBlock).result =
      Except.error "down" ∧
    (get_db_session_context allFailOutcome [] addBlock).usedSession = none :=
  ⟨rfl,
    ((C2_retry_bound allFailOutcome [] addBlock "down" "down" "down" ⟨0⟩ 0
        allFailOutcome).1 rfl rfl rfl).2.1,
    ((C2_retry_bound allFailOutcome [] addBlock "down" "down" "down" ⟨0⟩ 0
        allFailOutcome).1 rfl rfl rfl).2.2.1⟩

/-- Session source failing twice then succeeding, for the C3
counterexample. -/
def failFailOk : Nat → Except DBErr Session :=
  fun n =>
    if n = 0 then Except.error "e0"
    else if n = 1 then Except.error "e1"
    else Except.ok ⟨7⟩

/-- C3 counterexample: with failures on the first two attempts and a
success on the third, the engine is disposed and rebuilt twice, not only
on the first failed attempt as the claim states. -/
theorem C3_counterexample :
    (acquire failFailOk).result = Except.ok ⟨7⟩ ∧
    (acquire failFailOk).rebuilds = 2 ∧
    ¬ (acquire failFailOk).rebuilds ≤ 1 :=
  ⟨rfl, rfl, by decide⟩

/-- C3 amended: the engine is disposed and rebuilt on every failed
acquisition attempt that still has a retry left, so the rebuild count
equals the number of failed attempts before the first success (and is 2,
the bound minus one, when every attempt fails); in particular exactly one
failure followed by a success rebuilds the engine exactly once. -/
theorem C3_rebuild_each_retry (outcome : Nat → Except DBErr Session)
    (i : Nat) (e : DBErr) (s : Session) :
    (outcome 0 = Except.error e → outcome 1 = Except.ok s →
      (acquire outcome).rebuilds = 1) ∧
    (i < maxRetries → sessionOk (outcome i) = true →
      (∀ j, j < i → sessionOk (outcome j) = false) →
      (acquire outcome).rebuilds = i) ∧
    ((∀ j, j < maxRetries → sessionOk (outcome j) = false) →
      (acquire outcome).rebuilds = maxRetries - 1) := by
  refine ⟨?_, ?_, ?_⟩
  · intro h0 h1
    simp [acquire, acquireGo, maxRetries, h0, h1]
  · intro hi hok hfail
    have hi3 : i < 3 := hi
    interval_cases i
    · cases ho0 : outcome 0 with
      | ok t => simp [acquire, acquireGo, maxRetries, ho0]
      | error a => rw [ho0] at hok; simp [sessionOk] at hok
    · have h0 := hfail 0 (by omega)
      cases ho0 : outcome 0 with
      | ok t => rw [ho0] at h0; simp [sessionOk] at h0
      | error a =>
        cases ho1 : outcome 1 with
        | ok t => simp [acquire, acquireGo, maxRetries, ho0, ho1]
        | error b => rw [ho1] at hok; simp [sessionOk] at hok
    · have h0 := hfail 0 (by omega)
      have h1 := hfail 1 (by omega)
      cases ho0 : outcome 0 with
      | ok t => rw [ho0] at h0; simp [sessionOk] at h0
      | error a =>
        cases ho1 : outcome 1 with
        | ok t => rw [ho1] at h1; simp [sessionOk] at h1
        | error b =>
          cases ho2 : outcome 2 with
          | ok t => simp [acquire, acquireGo, maxRetries, ho0, ho1, ho2]
          | error c => rw [ho2] at hok; simp [sessionOk] at hok
  · intro hfail
    have h0 := hfail 0 (by decide)
    have h1 := hfail 1 (by decide)
    have h2 := hfail 2 (by decide)
    cases ho0 : outcome 0 with
    | ok t => rw [ho0] at h0; simp [sessionOk] at h0
    | error a =>
      cases ho1 : outcome 1 with
      | ok t => rw [ho1] at h1; simp [sessionOk] at h1
      | error b =>
        cases ho2 : outcome 2 with
        | ok t => rw [ho2] at h2; simp [sessionOk] at h2
        | error c => simp [acquire, acquireGo, maxRetries, ho0, ho1, ho2]

/-- Session source failing once then succeeding, for the C3 witness. -/
def failOnceOutcome : Nat → Except DBErr Session :=
  fun n => if n = 0 then Except.error "stale" else Except.ok ⟨1⟩

/-- C3 witness: one failure then success rebuilds the engine exactly
once. -/
theorem C3_rebuild_each_retry_witness :
    failOnceOutcome 0 = Except.error "stale" ∧
    failOnceOutcome 1 = Except.ok ⟨1⟩ ∧
    (acquire failOnceOutcome).rebuilds = 1 :=
  ⟨rfl, rfl,
    (C3_rebuild_each_retry failOnceOutcome 1 "stale" ⟨1⟩).1 rfl rfl⟩

/-- The empty environment, used by the C5 witness. -/
def envNone : Env := fun _ => none

/-- An environment with all four managed variables set, used by the C5
witness to exercise the construction-failure fallback. -/
def envManagedAll : Env := fun k => if k ∈ managedKeys then some "v" else none

/-- C5: get_engine is total (it never propagates an exception); when any
of the four managed-database variables is absent it returns the SQLite
engine whatever the connector would do, when managed construction raises
it returns the SQLite engine whatever the environment, and the SQLite URL
scheme denotes local-file storage. -/
theorem C5_get_engine_fallback (env envAny : Env) (r : Except DBErr Engine)
    (e : DBErr) (h : ∃ k ∈ managedKeys, envHas env k = false) :
    get_engine env r = sqliteEngine ∧
    get_engine envAny (Except.error e) = sqliteEngine ∧
    urlScheme (get_engine env r) = "sqlite" ∧
    urlScheme (get_engine envAny (Except.error e)) = "sqlite" := by
  have hm : managed_mode env = false := by
    obtain ⟨k, hk, hv⟩ := h
    unfold managed_mode
    rw [List.all_eq_false]
    exact ⟨k, hk, by simp [hv]⟩
  have h1 : get_engine env r = sqliteEngine := by simp [get_engine, hm]
  have h2 : get_engine envAny (Except.error e) = sqliteEngine := by
    unfold get_engine
    split
    · rfl
    · rfl
  refine ⟨h1, h2, ?_, ?_⟩
  · rw [h1]; decide
  · rw [h2]; decide

/-- C5 witness: with nothing set, get_engine yields the SQLite engine;
with all managed variables set but construction raising, it also yields
the SQLite engine. -/
theorem C5_get_engine_fallback_witness :
    (∃ k ∈ managedKeys, envHas envNone k = false) ∧
    get_engine envNone (Except.ok ⟨"mysql+pymysql://"⟩) = sqliteEngine ∧
    get_engine envManagedAll (Except.error "boom") = sqliteEngine ∧
    urlScheme (get_engine envNone (Except.ok ⟨"mysql+pymysql://"⟩)) =
      "sqlite" ∧
    urlScheme (get_engine envManagedAll (Except.error "boom")) = "sqlite" :=
  ⟨by decide,
    C5_get_engine_fallback envNone envManagedAll
      (Except.ok ⟨"mysql+pymysql://"⟩) "boom" (by decide)⟩

/-- An environment holding exactly the unprefixed names the spec lists,
for the C6 counterexample. -/
def envSpecOnly : Env := fun k => if k ∈ specManagedKeys then some "set" else none

/-- An environment where PRIVATE_IP is present but empty, for the C6
counterexample. -/
def envEmptyPrivate : Env := fun k => if k = "PRIVATE_IP" then some "" else none

/-- C6 counterexample: an environment holding exactly the four variables
under the names the claim states (INSTANCE_CONNECTION_NAME, DB_USER,
DB_PASS, DB_NAME) does not select managed mode, because the code checks
the CONTACTS_-prefixed names; and PRIVATE_IP present with an empty value
selects the public path, so presence alone does not toggle it. -/
theorem C6_counterexample :
    specManagedKeys.all (envHas envSpecOnly) = true ∧
    managed_mode envSpecOnly = false ∧
    get_engine envSpecOnly (Except.ok ⟨"mysql+pymysql://"⟩) = sqliteEngine ∧
    envHas envEmptyPrivate "PRIVATE_IP" = true ∧
    connectorIpType envEmptyPrivate = IPType.PUBLIC := by decide

/-- C6 amended: managed-database mode is selected exactly when
CONTACTS_INSTANCE_CONNECTION_NAME, CONTACTS_DB_USER, CONTACTS_DB_PASS and
CONTACTS_DB_NAME are all present (all required together), and the
connector takes the private network path exactly when PRIVATE_IP is
present with a non-empty value. -/
theorem C6_managed_mode_selection (env : Env) (m : Engine) :
    (managed_mode env = true ↔
      envHas env "CONTACTS_INSTANCE_CONNECTION_NAME" = true ∧
      envHas env "CONTACTS_DB_USER" = true ∧
      envHas env "CONTACTS_DB_PASS" = true ∧
      envHas env "CONTACTS_DB_NAME" = true) ∧
    (managed_mode env = true → get_engine env (Except.ok m) = m) ∧
    (managed_mode env = false → get_engine env (Except.ok m) = sqliteEngine) ∧
    (connectorIpType env = IPType.PRIVATE ↔
      ∃ v, env "PRIVATE_IP" = some v ∧ v ≠ "") := by
  refine ⟨?_, ?_, ?_, ?_⟩
  · simp [managed_mode, managedKeys, and_assoc]
  · intro hm
    simp [get_engine, hm]
  · intro hm
    simp [get_engine, hm]
  · unfold connectorIpType envTruthy
    cases hp : env "PRIVATE_IP" with
    | none => simp
    | some v =>
      by_cases hv : v = ""
      · subst hv; simp
      · simp [hv]

/-- An environment with all four CONTACTS_-prefixed variables and a
non-empty PRIVATE_IP, for the C6 witness. -/
def envAllManaged : Env :=
  fun k => if k ∈ managedKeys ∨ k = "PRIVATE_IP" then some "1" else none

/-- C6 witness: the amended selection rule evaluated on an environment
with all four prefixed variables and PRIVATE_IP set to 1. -/
theorem C6_managed_mode_selection_witness :
    (managed_mode envAllManaged = true ↔
      envHas envAllManaged "CONTACTS_INSTANCE_CONNECTION_NAME" = true ∧
      envHas envAllManaged "CONTACTS_DB_USER" = true ∧
      envHas envAllManaged "CONTACTS_DB_PASS" = true ∧
      envHas envAllManaged "CONTACTS_DB_NAME" = true) ∧
    (managed_mode envAllManaged = true →
      get_engine envAllManaged (Except.ok ⟨"mysql+pymysql://"⟩) =
        ⟨"mysql+pymysql://"⟩) ∧
    (managed_mode envAllManaged = false →
      get_engine envAllManaged (Except.ok ⟨"mysql+pymysql://"⟩) =
        sqliteEngine) ∧
    (connectorIpType envAllManaged = IPType.PRIVATE ↔
      ∃ v, envAllManaged "PRIVATE_IP" = some v ∧ v ≠ "") :=
  C6_managed_mode_selection envAllManaged ⟨"mysql+pymysql://"⟩
